import Mathlib

/-!
Verification development for the TSV processing service.

The Go sources are embedded shallowly: Go strings are modelled as lists of
characters (`GoStr`), the relevant `strings` / `strconv` standard-library
functions are re-implemented as small recursive Lean functions, and the
stateful parts (database calls, queue sends, file moves) are modelled as
explicit operation traces or explicit queue states.  Sources:
  * internal/processor/processor.go  — `ProcessFile`, `parseTSVFile`,
    `parseLine`, `parseLevel`, `parseBit`, `parseInvertBit`
  * internal/watcher/directory_watcher.go — `Watcher`, `scanDirectory`,
    `processFile`, `SendToQueue`
  * internal/database/store.go — `BeginTransaction` (defined, never called
    by the processor)
-/

/-- Go strings modelled as lists of characters. -/
abbrev GoStr := List Char

/-- ASCII whitespace predicate: models the characters `strings.TrimSpace`
strips for the ASCII inputs that occur in this code base (space, TAB, LF,
VT, FF, CR). -/
def isSpaceGo (c : Char) : Bool :=
  c = ' ' || (9 ≤ c.toNat && c.toNat ≤ 13)

/-- Drops leading ASCII whitespace (left half of `strings.TrimSpace`). -/
def trimLeftGo : GoStr → GoStr
  | [] => []
  | c :: rest => if isSpaceGo c then trimLeftGo rest else c :: rest

/-- Embeds `strings.TrimSpace` for ASCII whitespace. -/
def trimSpaceGo (s : GoStr) : GoStr :=
  ((trimLeftGo s.reverse).reverse |> trimLeftGo)

/-- ASCII lower-casing of one character, as `strings.ToLower` acts on the
ASCII range (non-ASCII characters are left unchanged; the embedded inputs
never exercise non-ASCII upper-case letters). -/
def charToLowerGo (c : Char) : Char :=
  if 'A' ≤ c && c ≤ 'Z' then Char.ofNat (c.toNat + 32) else c

/-- Embeds `strings.ToLower` (ASCII range). -/
def toLowerGo (s : GoStr) : GoStr := s.map charToLowerGo

/-- Embeds `strings.HasPrefix(s, pat)`: `hasPrefixGo pat s`. -/
def hasPrefixGo : GoStr → GoStr → Bool
  | [], _ => true
  | _ :: _, [] => false
  | p :: ps, c :: cs => p = c && hasPrefixGo ps cs

/-- Embeds `strings.HasSuffix(s, pat)`: `hasSuffixGo pat s`. -/
def hasSuffixGo (pat s : GoStr) : Bool :=
  hasPrefixGo pat.reverse s.reverse

/-- Embeds `strings.Contains(s, pat)`: `containsGo pat s`. -/
def containsGo (pat : GoStr) : GoStr → Bool
  | [] => pat.isEmpty
  | c :: rest => hasPrefixGo pat (c :: rest) || containsGo pat rest

/-- Embeds `strings.Split(s, "\t")` (processor.go line 208): splits on every
TAB, keeping empty fields; the empty string yields one empty field. -/
def splitTab : GoStr → List GoStr
  | [] => [[]]
  | c :: rest =>
    let r := splitTab rest
    if c = '\t' then [] :: r
    else
      match r with
      | [] => [[c]]
      | f :: fs => (c :: f) :: fs

/-- Value of a hexadecimal digit character, as the `xtob` table of
github.com/google/uuid. -/
def hexVal (c : Char) : Option Nat :=
  if '0' ≤ c && c ≤ '9' then some (c.toNat - 48)
  else if 'a' ≤ c && c ≤ 'f' then some (c.toNat - 87)
  else if 'A' ≤ c && c ≤ 'F' then some (c.toNat - 55)
  else none

/-- Embeds `xtob` of github.com/google/uuid: two hex digits to one byte. -/
def xtob (c1 c2 : Char) : Option Nat :=
  match hexVal c1, hexVal c2 with
  | some h, some l => some (h * 16 + l)
  | _, _ => none

/-- A 128-bit UUID as its 16 bytes, the `uuid.UUID` byte array. -/
abbrev UUIDBytes := List Nat

/-- The zero value `uuid.Nil` / `uuid.UUID{}`: sixteen zero bytes. -/
def nilUUID : UUIDBytes := List.replicate 16 0

/-- Byte start positions of the hex pairs inside the canonical
`xxxxxxxx-xxxx-xxxx-xxxx-xxxxxxxxxxxx` form, as in `uuid.Parse`. -/
def uuidHexPositions : List Nat :=
  [0, 2, 4, 6, 9, 11, 14, 16, 19, 21, 24, 26, 28, 30, 32, 34]

/-- Parses the hyphenated 36-byte core of a UUID string (the tail of
`uuid.Parse` after length dispatch). -/
def uuidParseCore (t : GoStr) : Option UUIDBytes :=
  if t.getD 8 ' ' = '-' && t.getD 13 ' ' = '-'
      && t.getD 18 ' ' = '-' && t.getD 23 ' ' = '-' then
    uuidHexPositions.mapM (fun x => xtob (t.getD x ' ') (t.getD (x + 1) ' '))
  else none

/-- Embeds `uuid.Parse` of github.com/google/uuid: accepts the canonical
36-character form, the `urn:uuid:` form (45), the braced form (38, where the
source strips only the opening brace), and the plain 32-hex-digit form;
every other length is rejected.  `none` stands for a parse error. -/
def uuidParse (s : GoStr) : Option UUIDBytes :=
  if s.length = 36 then uuidParseCore s
  else if s.length = 45 then
    if toLowerGo (s.take 9) = "urn:uuid:".data then uuidParseCore (s.drop 9)
    else none
  else if s.length = 38 then uuidParseCore (s.drop 1)
  else if s.length = 32 then
    (List.range 16).mapM (fun i => xtob (s.getD (2 * i) ' ') (s.getD (2 * i + 1) ' '))
  else none

/-- All characters are decimal digits and the list is non-empty; helper for
`goParseInt32`. -/
def decDigits : GoStr → Option Nat
  | [] => none
  | ds =>
    ds.foldlM (fun acc c =>
      if '0' ≤ c && c ≤ '9' then some (acc * 10 + (c.toNat - 48)) else none) 0

/-- Embeds `strconv.ParseInt(s, 10, 32)` as used by `parseLevel` and
`parseBit` (processor.go lines 355-369): an optional sign followed by
decimal digits, within the signed 32-bit range; `none` is a parse error. -/
def goParseInt32 (s : GoStr) : Option Int :=
  match s with
  | '+' :: rest =>
    match decDigits rest with
    | some n => if n ≤ 2147483647 then some (Int.ofNat n) else none
    | none => none
  | '-' :: rest =>
    match decDigits rest with
    | some n => if n ≤ 2147483648 then some (-(Int.ofNat n)) else none
    | none => none
  | _ =>
    match decDigits s with
    | some n => if n ≤ 2147483647 then some (Int.ofNat n) else none
    | none => none

/-- Embeds `strconv.ParseBool`: accepts 1/t/T/TRUE/true/True and
0/f/F/FALSE/false/False. -/
def goParseBool (s : GoStr) : Option Bool :=
  if s = "1".data || s = "t".data || s = "T".data || s = "TRUE".data
      || s = "true".data || s = "True".data then some true
  else if s = "0".data || s = "f".data || s = "F".data || s = "FALSE".data
      || s = "false".data || s = "False".data then some false
  else none

/-- Embeds `parseInvertBit` (processor.go lines 371-386): lower-cases the
trimmed field, accepts true/1/да/yes and false/0/нет/no/empty, and falls
back to `strconv.ParseBool`; `none` is the `cannot parse invert_bit`
error. -/
def parseInvertBit (field : GoStr) : Option Bool :=
  let f := toLowerGo (trimSpaceGo field)
  if f = "true".data || f = "1".data || f = "да".data || f = "yes".data then
    some true
  else if f = "false".data || f = "0".data || f = "нет".data || f = "no".data
      || f = [] then
    some false
  else goParseBool f

/-- Embeds `TSVRow` (processor.go lines 28-44): the `sql.NullXxx` fields
become `Option`, `uuid.UUID` becomes its 16 bytes, and the zero value has
`UnitGuid = uuid.Nil`.  The Go field `Type` is spelt `TypeField` because
`Type` is reserved in Lean. -/
structure TSVRow where
  UnitGuid : UUIDBytes := nilUUID
  Mqtt : Option GoStr := none
  Invid : Option GoStr := none
  MsgID : Option GoStr := none
  Text : Option GoStr := none
  Context : Option GoStr := none
  Class : Option GoStr := none
  Level : Option Int := none
  Area : Option GoStr := none
  Addr : Option GoStr := none
  Block : Option GoStr := none
  TypeField : Option GoStr := none
  Bit : Option Int := none
  InvertBit : Option Bool := none
  LineNumber : Nat := 0
deriving DecidableEq, Repr

/-- Embeds `ProcessingError` (processor.go lines 47-52). -/
structure ProcError where
  lineNumber : Option Nat
  rawLine : Option GoStr
  errorMessage : String
  fieldName : Option GoStr
deriving DecidableEq, Repr

/-- One switch arm of the field loop in `parseLine` (processor.go lines
262-344): given the 0-based field index and the trimmed field, updates the
row or reports the first error.  The messages built with `fmt.Errorf`
suffixes (`invalid unit_guid format: %v` and the like) are kept by their
stable prefix. -/
def applyField (i : Nat) (field : GoStr) (row : TSVRow) : Except String TSVRow :=
  match i with
  | 0 => .ok row
  | 1 => .ok (if field = [] then row else { row with Mqtt := some field })
  | 2 => .ok (if field = [] then row else { row with Invid := some field })
  | 3 =>
    if field = [] then .error "unit_guid is required"
    else
      match uuidParse field with
      | none => .error "invalid unit_guid format"
      | some g => .ok { row with UnitGuid := g }
  | 4 => .ok (if field = [] then row else { row with MsgID := some field })
  | 5 => .ok (if field = [] then row else { row with Text := some field })
  | 6 => .ok (if field = [] then row else { row with Context := some field })
  | 7 => .ok (if field = [] then row else { row with Class := some field })
  | 8 =>
    if field = [] then .ok row
    else
      match goParseInt32 field with
      | none => .error "invalid level"
      | some v => .ok { row with Level := some v }
  | 9 => .ok (if field = [] then row else { row with Area := some field })
  | 10 => .ok (if field = [] then row else { row with Addr := some field })
  | 11 => .ok (if field = [] then row else { row with Block := some field })
  | 12 => .ok (if field = [] then row else { row with TypeField := some field })
  | 13 =>
    if field = [] then .ok row
    else
      match goParseInt32 field with
      | none => .error "invalid bit"
      | some v => .ok { row with Bit := some v }
  | 14 =>
    if field = [] then .ok row
    else
      match parseInvertBit field with
      | none => .error "invalid invert_bit"
      | some b => .ok { row with InvertBit := some b }
  | _ => .ok row

/-- The `for i, field := range fields` loop of `parseLine`: each field is
trimmed and dispatched on its index; the first error aborts the line. -/
def parseFields : List GoStr → Nat → TSVRow → Except String TSVRow
  | [], _, row => .ok row
  | f :: rest, i, row =>
    match applyField i (trimSpaceGo f) row with
    | .error e => .error e
    | .ok row2 => parseFields rest (i + 1) row2

/-- Embeds `parseLine` (processor.go lines 250-352): requires at least 5
fields, runs the field loop, and finally rejects a row whose `UnitGuid`
equals `uuid.Nil` with `unit_guid is required`. -/
def parseLine (fields : List GoStr) (lineNumber : Nat) : Except String TSVRow :=
  if fields.length < 5 then
    .error ("insufficient fields: expected at least 5, got " ++ Nat.repr fields.length)
  else
    match parseFields fields 0 { LineNumber := lineNumber } with
    | .error e => .error e
    | .ok row =>
      if row.UnitGuid = nilUUID then .error "unit_guid is required" else .ok row

/-- First header pattern of processor.go line 213. -/
def headerPat1 : GoStr := "n\tmqtt\tinvid".data

/-- Second header pattern of processor.go line 214. -/
def headerPat2 : GoStr := "номер\tmqtt".data

/-- Header detection of `parseTSVFile` (processor.go lines 213-214): the
lower-cased raw line contains one of the two header patterns. -/
def isHeaderLine (rawLine : GoStr) : Bool :=
  containsGo headerPat1 (toLowerGo rawLine) || containsGo headerPat2 (toLowerGo rawLine)

/-- The scanner loop of `parseTSVFile` (processor.go lines 198-234) over the
list of raw lines, carrying the running line counter and the
`isFirstDataLine` flag: blank lines and `#` comments are skipped, a first
header-looking line is skipped, every other line goes through `parseLine`
and lands either in the row list or in the error list. -/
def parseTSVGo : List GoStr → Nat → Bool → List TSVRow × List ProcError
  | [], _, _ => ([], [])
  | rawLine :: rest, lineNumber, isFirstDataLine =>
    let n := lineNumber + 1
    if trimSpaceGo rawLine = [] || hasPrefixGo "#".data (trimSpaceGo rawLine) then
      parseTSVGo rest n isFirstDataLine
    else if isFirstDataLine && isHeaderLine rawLine then
      parseTSVGo rest n false
    else
      match parseLine (splitTab rawLine) n with
      | .error e =>
        ((parseTSVGo rest n false).1,
          { lineNumber := some n, rawLine := some rawLine,
            errorMessage := e, fieldName := none } :: (parseTSVGo rest n false).2)
      | .ok row =>
        (row :: (parseTSVGo rest n false).1, (parseTSVGo rest n false).2)

/-- Embeds `parseTSVFile` (processor.go lines 178-247) on an already-read
file content (the open-error and scanner-error paths are not modelled: the
input is given as its list of lines). -/
def parseTSVFile (lines : List GoStr) : List TSVRow × List ProcError :=
  parseTSVGo lines 0 true

/-- Number of non-skipped records of a file: lines that are neither blank,
nor comments, nor the skipped leading header line; mirrors exactly the skip
logic of `parseTSVGo`. -/
def nonSkippedGo : List GoStr → Bool → Nat
  | [], _ => 0
  | rawLine :: rest, isFirstDataLine =>
    if trimSpaceGo rawLine = [] || hasPrefixGo "#".data (trimSpaceGo rawLine) then
      nonSkippedGo rest isFirstDataLine
    else if isFirstDataLine && isHeaderLine rawLine then
      nonSkippedGo rest false
    else
      1 + nonSkippedGo rest false

/-- Number of non-skipped records of a whole file. -/
def nonSkippedRecords (lines : List GoStr) : Nat :=
  nonSkippedGo lines true

/-- Embeds `watcher.FileInfo` (directory_watcher.go lines 18-24); the
modification time is not modelled (no claim mentions it). -/
structure FileInfoW where
  path : GoStr
  name : GoStr
  size : Nat
  hash : GoStr
deriving DecidableEq, Repr

/-- One directory entry as `os.ReadDir` reports it, together with the file
content the watcher would hash. -/
structure DirEntry where
  name : GoStr
  isDir : Bool
  content : GoStr
deriving DecidableEq, Repr

/-- The candidate filter of `scanDirectory` (directory_watcher.go lines
114-122): not a directory, not hidden, lower-cased name ends in `.tsv`. -/
def eligibleEntry (e : DirEntry) : Bool :=
  !e.isDir && !hasPrefixGo ".".data e.name
    && hasSuffixGo ".tsv".data (toLowerGo e.name)

/-- The bounded file queue: the buffered channel `fileQueue` of capacity
`queueSize` (directory_watcher.go lines 31 and 45), with its current
buffered items. -/
structure QueueState where
  cap : Nat
  items : List FileInfoW
deriving DecidableEq, Repr

/-- Outcome of one send attempt on the queue: either the item was buffered,
or the `time.After` branch fired after waiting the stated number of
milliseconds. -/
inductive SendOutcome where
  | queued
  | droppedAfterMs (ms : Nat)
deriving DecidableEq, Repr

/-- Builds the `FileInfo` for a candidate (directory_watcher.go lines
145-151); the content digest `hex(sha256(content))` is abstracted as the
parameter `hash`. -/
def mkFileInfo (hash : GoStr → GoStr) (watchDir : GoStr) (e : DirEntry) : FileInfoW :=
  { path := watchDir ++ '/' :: e.name, name := e.name,
    size := e.content.length, hash := hash e.content }

/-- Embeds the `select` of the scan-time enqueue (directory_watcher.go lines
155-161) during a single-threaded scan with no concurrent consumer: if the
buffered channel has free space the item is enqueued at once; otherwise the
sender waits out the `time.After(5 * time.Second)` branch — 5000 ms — and
the file is dropped for this scan. -/
def watcherSend (st : QueueState) (fi : FileInfoW) : QueueState × SendOutcome :=
  if st.items.length < st.cap then
    ({ st with items := st.items ++ [fi] }, .queued)
  else
    (st, .droppedAfterMs 5000)

/-- Embeds `Watcher.processFile` (directory_watcher.go lines 131-162) for a
readable file: stat and hash the candidate, then attempt the timed enqueue.
No in-memory processed-hash set is consulted or updated at any point. -/
def processFileW (hash : GoStr → GoStr) (watchDir : GoStr)
    (st : QueueState) (e : DirEntry) : QueueState × SendOutcome :=
  watcherSend st (mkFileInfo hash watchDir e)

/-- Embeds `Watcher.scanDirectory` (directory_watcher.go lines 107-127):
walks the directory listing and runs `processFileW` on every eligible
candidate, threading the queue state. -/
def scanDirectoryW (hash : GoStr → GoStr) (watchDir : GoStr)
    (st : QueueState) : List DirEntry → QueueState
  | [] => st
  | e :: rest =>
    if eligibleEntry e then
      scanDirectoryW hash watchDir (processFileW hash watchDir st e).1 rest
    else
      scanDirectoryW hash watchDir st rest

/-- True when some content hash occurs more than once in the list. -/
def hasDupHash : List GoStr → Bool
  | [] => false
  | h :: rest => rest.contains h || hasDupHash rest

/-- One row of the `files` table as the processor reads it back
(`GetFileByFilename`); only the columns the dedupe check consults are
modelled. -/
structure FileRec where
  id : Nat
  filename : GoStr
  fileHash : GoStr
deriving DecidableEq, Repr

/-- Embeds the query `GetFileByFilename` (db/query/file.sql): first stored
row with the given filename, `none` for `sql.ErrNoRows`. -/
def getFileByFilename (db : List FileRec) (name : GoStr) : Option FileRec :=
  db.find? (fun r => r.filename == name)

/-- One database or filesystem operation `ProcessFile` could issue.  The
constructors `beginTransaction` / `commitTransaction` correspond to
`Store.BeginTransaction` (store.go lines 86-88) and `Tx.Commit`;
`moveFileToArchive` / `moveFileToError` correspond to the `archive/` and
`error/` dispositions named by the spec.  They are part of the vocabulary
so that their absence from a trace is a statement about the code. -/
inductive DBOp where
  | getFileByFilename (filename : GoStr)
  | beginTransaction
  | commitTransaction
  | createFile (filename fileHash : GoStr) (status : String)
  | createProcessingError (fileId : Nat) (e : ProcError)
  | createDeviceData (fileId : Nat) (row : TSVRow)
  | updateFileProgress (fileId : Nat) (rowsProcessed rowsFailed : Nat)
  | updateFileStatus (fileId : Nat) (status : String)
  | moveFileToArchive (path : GoStr)
  | moveFileToError (path : GoStr)
deriving DecidableEq, Repr

/-- Success and failure counters of the device-data insert loop
(processor.go lines 106-136): the row at index `i` increments the success
count when `insertOk i` holds and the failure count otherwise. -/
def insertCounts (insertOk : Nat → Bool) : Nat → Nat × Nat
  | 0 => (0, 0)
  | n + 1 =>
    let p := insertCounts insertOk n
    if insertOk n then (p.1 + 1, p.2) else (p.1, p.2 + 1)

/-- Embeds the final-status computation (processor.go lines 150-155):
`failed` only when every parsed row failed to insert and there was at least
one, `partial` on a positive failure count, otherwise `completed`. -/
def finalStatus (failedCount rowCount : Nat) : String :=
  if failedCount > 0 && failedCount = rowCount then "failed"
  else if failedCount > 0 then "partial"
  else "completed"

/-- The ingest tail of `ProcessFile` (processor.go lines 73-175) as the
trace of operations it issues: create the FileRecord (an insert failure —
`createOk = false` — aborts with an error), store every parse error, try to
insert every parsed row (the outcome of the row at index `i` is the oracle
`insertOk i`), update progress with the two counters, and set the final
status.  `generateReports` (lines 389-416) iterates an always-empty map and
issues nothing.  No transaction is begun and no file is moved. -/
def processIngest (newId : Nat) (fi : FileInfoW) (lines : List GoStr)
    (insertOk : Nat → Bool) (createOk : Bool) :
    List DBOp × Except String Unit :=
  if createOk = false then
    ([DBOp.createFile fi.name fi.hash "processing"],
      .error "failed to create file record")
  else
    let rows := (parseTSVFile lines).1
    let errs := (parseTSVFile lines).2
    let cnts := insertCounts insertOk rows.length
    (DBOp.createFile fi.name fi.hash "processing"
        :: (errs.map (DBOp.createProcessingError newId)
          ++ rows.map (DBOp.createDeviceData newId)
          ++ [DBOp.updateFileProgress newId cnts.1 cnts.2,
              DBOp.updateFileStatus newId (finalStatus cnts.2 rows.length)]),
      .ok ())

/-- Embeds `ProcessFile` (processor.go lines 63-175): look up the FileRecord
by filename; when it exists with the same content hash, return `ok` at once
without touching the store; otherwise run the ingest tail.  `lines` is the
content of the file at `fi.path`, `newId` the id the `files` insert would
return. -/
def processFile (db : List FileRec) (newId : Nat) (fi : FileInfoW)
    (lines : List GoStr) (insertOk : Nat → Bool) (createOk : Bool) :
    List DBOp × Except String Unit :=
  match getFileByFilename db fi.name with
  | some r =>
    if r.fileHash = fi.hash then
      ([DBOp.getFileByFilename fi.name], .ok ())
    else
      let t := processIngest newId fi lines insertOk createOk
      (DBOp.getFileByFilename fi.name :: t.1, t.2)
  | none =>
    let t := processIngest newId fi lines insertOk createOk
    (DBOp.getFileByFilename fi.name :: t.1, t.2)

/-- The operation starts or ends a database transaction. -/
def isTxOp : DBOp → Bool
  | .beginTransaction => true
  | .commitTransaction => true
  | _ => false

/-- The operation is `BeginTransaction`. -/
def isBeginTx : DBOp → Bool
  | .beginTransaction => true
  | _ => false

/-- The operation is a transaction commit. -/
def isCommitTx : DBOp → Bool
  | .commitTransaction => true
  | _ => false

/-- The operation writes to the store (insert or update). -/
def isPersistOp : DBOp → Bool
  | .createFile _ _ _ => true
  | .createProcessingError _ _ => true
  | .createDeviceData _ _ => true
  | .updateFileProgress _ _ _ => true
  | .updateFileStatus _ _ => true
  | _ => false

/-- The operation moves the on-disk input file. -/
def isMoveOp : DBOp → Bool
  | .moveFileToArchive _ => true
  | .moveFileToError _ => true
  | _ => false

/-- Formalizes the transactional-visibility property claimed of a trace:
either it performs no store write at all, or it begins a transaction,
commits one, and every store write lies after the first
`beginTransaction` and before the last `commitTransaction`. -/
def wrappedInOneTx (tr : List DBOp) : Bool :=
  !tr.any isPersistOp
    || (tr.any isBeginTx && tr.any isCommitTx
      && !(tr.takeWhile (fun o => !isBeginTx o)).any isPersistOp
      && !(tr.reverse.takeWhile (fun o => !isCommitTx o)).any isPersistOp)

/-- Extracts the stored class of a successfully parsed row; `none` when the
line was rejected. -/
def classOfResult : Except String TSVRow → Option (Option GoStr)
  | .ok row => some row.Class
  | .error _ => none

/-- True unless the result is a parsed row carrying the nil UUID. -/
def guidOkResult : Except String TSVRow → Bool
  | .ok row => decide (row.UnitGuid ≠ nilUUID)
  | .error _ => true

/-- Modelled from the spec: the allowed class set of §4.3, absent from the
source `parseLine` (processor.go lines 299-302 store any non-empty class). -/
def specAllowedClasses : List GoStr :=
  (["alarm", "warning", "info", "event", "comand", "waiting", "working"]).map String.data

/-- Modelled from the spec: the §4.3 pre-parse normalization that replaces
every run of two or more ASCII spaces by one TAB; `collapseAux n s` carries
the count `n` of pending spaces.  No counterpart exists in the source. -/
def collapseAux : Nat → GoStr → GoStr
  | 0, [] => []
  | 1, [] => [' ']
  | _ + 2, [] => ['\t']
  | n, ' ' :: rest => collapseAux (n + 1) rest
  | 0, c :: rest => c :: collapseAux 0 rest
  | 1, c :: rest => ' ' :: c :: collapseAux 0 rest
  | _ + 2, c :: rest => '\t' :: c :: collapseAux 0 rest

/-- Modelled from the spec: whole-line space-run collapsing. -/
def specCollapseSpaces (s : GoStr) : GoStr := collapseAux 0 s

/-- The header line of the test fixtures (processor_test.go). -/
def headerLine : GoStr :=
  "n\tmqtt\tinvid\tunit_guid\tmsg_id\ttext\tcontext\tclass\tlevel\tarea\taddr\tblock\ttype\tbit\tinvert_bit".data

/-- A valid data line (first row of `TestProcessFile_Success`). -/
def dataLineGood : GoStr :=
  "1\t\tG-044322\t01749246-95f6-57db-b7c3-2ae0e8be671f\tcold7_Defrost_status\tРазморозка\t\twaiting\t100\tLOCAL\tcold7_status.Defrost_status\t\t\t\t".data

/-- A second valid data line (second row of `TestProcessFile_Success`). -/
def dataLineGood2 : GoStr :=
  "2\t\tG-044322\t01749246-95f6-57db-b7c3-2ae0e8be671f\tcold7_VentSK_status\tВентилятор\t\tworking\t100\tLOCAL\tcold7_status.VentSK_status\t\t\t\t".data

/-- A data line whose unit_guid does not parse (from
`TestProcessFile_InvalidFile`). -/
def dataLineBadUUID : GoStr :=
  "1\t\tG-044322\tnot-a-uuid\tmsg\ttext\t\talarm\t100\tLOCAL\taddr\t\t\t\t".data

/-- FileInfo for the happy-path fixture file. -/
def fiSuccess : FileInfoW :=
  ⟨"incoming/test_success.tsv".data, "test_success.tsv".data, 10, "hsucc".data⟩

/-- FileInfo for the invalid-UUID fixture file. -/
def fiInvalid : FileInfoW :=
  ⟨"incoming/invalid.tsv".data, "invalid.tsv".data, 10, "hinv".data⟩

/-- FileInfo for the mixed-validity fixture file. -/
def fiMixed : FileInfoW :=
  ⟨"incoming/mixed.tsv".data, "mixed.tsv".data, 10, "hmix".data⟩

/-- An eligible directory entry used by the watcher fixtures. -/
def cEntryA : DirEntry := ⟨"a.tsv".data, false, "x".data⟩

/-- A queue item that keeps the capacity-1 fixture queue full. -/
def cFullItem : FileInfoW :=
  ⟨"incoming/busy.tsv".data, "busy.tsv".data, 1, "bb".data⟩

/-- A data line whose five fields are separated by double spaces. -/
def spaceLine : GoStr :=
  "1  m  g  01749246-95f6-57db-b7c3-2ae0e8be671f  msg".data

/-- The TAB-separated form of `spaceLine`. -/
def tabLine : GoStr :=
  "1\tm\tg\t01749246-95f6-57db-b7c3-2ae0e8be671f\tmsg".data

/-- The invalid-class fields of `TestParseLine_InvalidClass`
(processor_test.go). -/
def cInvalidClassFields : List GoStr :=
  (["1", "", "G-044322", "01749246-95f6-57db-b7c3-2ae0e8be671f",
    "msg", "text", "", "INVALID_CLASS", "100"]).map String.data

/-- Fields whose unit_guid is the canonical all-zeros UUID. -/
def cNilUUIDFields : List GoStr :=
  (["1", "", "G-044322", "00000000-0000-0000-0000-000000000000", "msg"]).map String.data

/-- The canonical all-zeros UUID string. -/
def zeroUUIDStr : GoStr := "00000000-0000-0000-0000-000000000000".data

theorem insertCounts_sum (insertOk : Nat → Bool) :
    ∀ n, (insertCounts insertOk n).1 + (insertCounts insertOk n).2 = n := by
  intro n
  induction n with
  | zero => rfl
  | succ k ih =>
    simp only [insertCounts]
    split <;> simp <;> omega

theorem processIngest_no_tx (newId : Nat) (fi : FileInfoW) (lines : List GoStr)
    (insertOk : Nat → Bool) (createOk : Bool) :
    ((processIngest newId fi lines insertOk createOk).1.any isTxOp) = false := by
  unfold processIngest
  split
  · simp [isTxOp]
  · simp [List.any_append, List.any_map, Function.comp, isTxOp]

theorem processIngest_no_move (newId : Nat) (fi : FileInfoW) (lines : List GoStr)
    (insertOk : Nat → Bool) (createOk : Bool) :
    ((processIngest newId fi lines insertOk createOk).1.any isMoveOp) = false := by
  unfold processIngest
  split
  · simp [isMoveOp]
  · simp [List.any_append, List.any_map, Function.comp, isMoveOp]

theorem processFile_no_tx (db : List FileRec) (newId : Nat) (fi : FileInfoW)
    (lines : List GoStr) (insertOk : Nat → Bool) (createOk : Bool) :
    ((processFile db newId fi lines insertOk createOk).1.any isTxOp) = false := by
  unfold processFile
  cases getFileByFilename db fi.name with
  | some r =>
    by_cases hh : r.fileHash = fi.hash
    · simp [hh, isTxOp]
    · simp [hh, isTxOp, processIngest_no_tx]
  | none => simp [isTxOp, processIngest_no_tx]

theorem processFile_no_move (db : List FileRec) (newId : Nat) (fi : FileInfoW)
    (lines : List GoStr) (insertOk : Nat → Bool) (createOk : Bool) :
    ((processFile db newId fi lines insertOk createOk).1.any isMoveOp) = false := by
  unfold processFile
  cases getFileByFilename db fi.name with
  | some r =>
    by_cases hh : r.fileHash = fi.hash
    · simp [hh, isMoveOp]
    · simp [hh, isMoveOp, processIngest_no_move]
  | none => simp [isMoveOp, processIngest_no_move]

theorem parseLine_ok_guid (fields : List GoStr) (ln : Nat) (row : TSVRow)
    (h : parseLine fields ln = .ok row) : row.UnitGuid ≠ nilUUID := by
  unfold parseLine at h
  split at h
  · exact absurd h (by simp)
  · revert h
    cases parseFields fields 0 { LineNumber := ln } with
    | error e => simp
    | ok r =>
      simp only []
      split
      · simp
      · intro h
        cases h
        assumption

theorem guidOkResult_true (fields : List GoStr) (ln : Nat) :
    guidOkResult (parseLine fields ln) = true := by
  cases h : parseLine fields ln with
  | error e => rfl
  | ok row =>
    simp only [guidOkResult, decide_eq_true_eq]
    exact parseLine_ok_guid fields ln row h

theorem parseTSVGo_guid (lines : List GoStr) :
    ∀ n first row, row ∈ (parseTSVGo lines n first).1 → row.UnitGuid ≠ nilUUID := by
  induction lines with
  | nil => intro n first row h; simp [parseTSVGo] at h
  | cons l rest ih =>
    intro n first row h
    unfold parseTSVGo at h
    split at h
    · exact ih _ _ _ h
    · split at h
      · exact ih _ _ _ h
      · cases hp : parseLine (splitTab l) (n + 1) with
        | error e =>
          simp only [hp] at h
          exact ih _ _ _ h
        | ok r =>
          simp only [hp] at h
          rcases List.mem_cons.mp h with h1 | h1
          · subst h1; exact parseLine_ok_guid _ _ _ hp
          · exact ih _ _ _ h1

theorem parseTSVGo_counts (lines : List GoStr) :
    ∀ n first, (parseTSVGo lines n first).1.length + (parseTSVGo lines n first).2.length
      = nonSkippedGo lines first := by
  induction lines with
  | nil => intro n first; rfl
  | cons l rest ih =>
    intro n first
    unfold parseTSVGo nonSkippedGo
    split
    · exact ih _ _
    · split
      · exact ih _ _
      · cases hp : parseLine (splitTab l) (n + 1) with
        | error e =>
          simp only [hp, List.length_cons]
          rw [← ih (n + 1) false]
          omega
        | ok r =>
          simp only [hp, List.length_cons]
          rw [← ih (n + 1) false]
          omega

theorem progress_mem_ingest (newId : Nat) (fi : FileInfoW) (lines : List GoStr)
    (insertOk : Nat → Bool) (createOk : Bool) (fid s f : Nat)
    (h : DBOp.updateFileProgress fid s f ∈ (processIngest newId fi lines insertOk createOk).1) :
    s = (insertCounts insertOk (parseTSVFile lines).1.length).1 ∧
    f = (insertCounts insertOk (parseTSVFile lines).1.length).2 := by
  unfold processIngest at h
  split at h
  · simp at h
  · simp only [List.mem_cons, List.mem_append, List.mem_map] at h
    rcases h with h | (⟨e, _, h⟩ | ⟨r, _, h⟩) | h | h
    · exact absurd h (by simp)
    · exact absurd h (by simp)
    · exact absurd h (by simp)
    · injection h with h1 h2 h3
      exact ⟨h2, h3⟩
    · exact absurd h (by simp)

theorem progress_mem_processFile (db : List FileRec) (newId : Nat) (fi : FileInfoW)
    (lines : List GoStr) (insertOk : Nat → Bool) (createOk : Bool) (fid s f : Nat)
    (h : DBOp.updateFileProgress fid s f ∈ (processFile db newId fi lines insertOk createOk).1) :
    s = (insertCounts insertOk (parseTSVFile lines).1.length).1 ∧
    f = (insertCounts insertOk (parseTSVFile lines).1.length).2 := by
  unfold processFile at h
  cases hlook : getFileByFilename db fi.name with
  | some r =>
    simp only [hlook] at h
    by_cases hh : r.fileHash = fi.hash
    · rw [if_pos hh] at h
      exact absurd h (by simp)
    · rw [if_neg hh] at h
      rcases List.mem_cons.mp h with h1 | h1
      · exact absurd h1 (by simp)
      · exact progress_mem_ingest _ _ _ _ _ _ _ _ h1
  | none =>
    simp only [hlook] at h
    rcases List.mem_cons.mp h with h1 | h1
    · exact absurd h1 (by simp)
    · exact progress_mem_ingest _ _ _ _ _ _ _ _ h1

theorem splitTab_no_tab (s : GoStr) (h : '\t' ∉ s) : splitTab s = [s] := by
  induction s with
  | nil => rfl
  | cons c rest ih =>
    have hc : ¬(c = '\t') := by
      intro e
      exact h (by rw [e]; exact List.mem_cons_self _ _)
    have hrest : '\t' ∉ rest := fun m => h (List.mem_cons_of_mem _ m)
    simp only [splitTab, ih hrest, if_neg hc]

/-- C1 counterexample: a concrete happy-path run of `ProcessFile` issues
store writes (FileRecord insert, DeviceRow inserts, progress and status
updates) yet its operation trace is not wrapped in any database
transaction — no `BeginTransaction` is ever issued. -/
theorem c1_counterexample :
    ((processFile [] 1 fiSuccess [headerLine, dataLineGood, dataLineGood2]
        (fun _ => true) true).1.any isPersistOp) = true ∧
    wrappedInOneTx ((processFile [] 1 fiSuccess [headerLine, dataLineGood, dataLineGood2]
        (fun _ => true) true).1) = false :=
  ⟨by decide, by decide⟩

/-- C1 (amended): `ProcessFile` performs the FileRecord insert, the
ProcessingError inserts, the DeviceRow inserts, the progress update and the
status update as individual auto-commit calls: for every input its trace
contains no transaction begin and no commit, so the records become visible
one by one rather than atomically. -/
theorem c1_no_transaction (db : List FileRec) (newId : Nat) (fi : FileInfoW)
    (lines : List GoStr) (insertOk : Nat → Bool) (createOk : Bool) :
    ((processFile db newId fi lines insertOk createOk).1.any isTxOp) = false :=
  processFile_no_tx db newId fi lines insertOk createOk

/-- C2: on a file whose only data line fails parsing (the invalid-UUID line
of `TestProcessFile_InvalidFile`), `ProcessFile` records progress (0, 0)
and sets the final status to `completed`, never to `failed` — the code
contradicts the claim and the repository's own test, which both require
`failed` when `successCount == 0`. -/
theorem c2_zero_success_marked_completed :
    DBOp.updateFileProgress 1 0 0 ∈
      (processFile [] 1 fiInvalid [headerLine, dataLineBadUUID] (fun _ => true) true).1 ∧
    DBOp.updateFileStatus 1 "completed" ∈
      (processFile [] 1 fiInvalid [headerLine, dataLineBadUUID] (fun _ => true) true).1 ∧
    DBOp.updateFileStatus 1 "failed" ∉
      (processFile [] 1 fiInvalid [headerLine, dataLineBadUUID] (fun _ => true) true).1 :=
  ⟨by decide, by decide, by decide⟩

/-- C3 counterexample: two successive scans of the same directory enqueue
the same content hash twice — the cited Watcher keeps no processed-hash
set, so nothing stops the duplicate. -/
theorem c3_counterexample :
    hasDupHash (((scanDirectoryW (fun s => s) "incoming".data
      (scanDirectoryW (fun s => s) "incoming".data ⟨2, []⟩ [cEntryA]) [cEntryA]).items).map
      (fun fi => fi.hash)) = true := by decide

/-- C3 (amended): the Watcher maintains no in-memory processed-hash set;
every scan re-offers every eligible candidate regardless of earlier
enqueues, so whenever the queue has room for two items, scanning the same
unchanged directory twice enqueues the same content hash twice within one
process lifetime. -/
theorem c3_rescan_enqueues_same_hash_again (hash : GoStr → GoStr) (wd : GoStr)
    (e : DirEntry) (st : QueueState) (he : eligibleEntry e = true)
    (hroom : st.items.length + 2 ≤ st.cap) :
    (scanDirectoryW hash wd (scanDirectoryW hash wd st [e]) [e]).items
      = st.items ++ [mkFileInfo hash wd e, mkFileInfo hash wd e] := by
  have h1 : st.items.length < st.cap := by omega
  have hscan1 : scanDirectoryW hash wd st [e]
      = { st with items := st.items ++ [mkFileInfo hash wd e] } := by
    simp [scanDirectoryW, processFileW, watcherSend, he, if_pos h1]
  have h2 : (st.items ++ [mkFileInfo hash wd e]).length < st.cap := by
    simp only [List.length_append, List.length_singleton]
    omega
  rw [hscan1]
  simp [scanDirectoryW, processFileW, watcherSend, he,
    show st.items.length + 1 < st.cap from by omega]

/-- Witness for C3 (amended) at a concrete directory, entry and queue. -/
theorem c3_rescan_enqueues_same_hash_again_witness :
    eligibleEntry cEntryA = true ∧
    (⟨2, []⟩ : QueueState).items.length + 2 ≤ (⟨2, []⟩ : QueueState).cap ∧
    (scanDirectoryW (fun s => s) "incoming".data
        (scanDirectoryW (fun s => s) "incoming".data ⟨2, []⟩ [cEntryA]) [cEntryA]).items
      = (⟨2, []⟩ : QueueState).items
        ++ [mkFileInfo (fun s => s) "incoming".data cEntryA,
            mkFileInfo (fun s => s) "incoming".data cEntryA] :=
  ⟨by decide, by decide,
    c3_rescan_enqueues_same_hash_again (fun s => s) "incoming".data cEntryA ⟨2, []⟩
      (by decide) (by decide)⟩

/-- C4: the ingest of the happy-path fixture reaches the terminal status
`completed`, yet `ProcessFile` never issues a file move — for every input
its trace contains no move to `archive/` and none to `error/`, although the
repository's own tests require the processed file to be moved. -/
theorem c4_terminal_status_without_file_move :
    DBOp.updateFileStatus 1 "completed" ∈
      (processFile [] 1 fiSuccess [headerLine, dataLineGood, dataLineGood2]
        (fun _ => true) true).1 ∧
    (∀ (db : List FileRec) (newId : Nat) (fi : FileInfoW) (lines : List GoStr)
        (insertOk : Nat → Bool) (createOk : Bool),
      ((processFile db newId fi lines insertOk createOk).1.any isMoveOp) = false) :=
  ⟨by decide, fun db newId fi lines insertOk createOk =>
    processFile_no_move db newId fi lines insertOk createOk⟩

/-- C5 counterexample: on a file with one valid and one invalid data line
the recorded progress is (1, 0), whose sum 1 differs from the 2 non-skipped
parsed records — records failing line-level validation are not counted. -/
theorem c5_counterexample :
    DBOp.updateFileProgress 1 1 0 ∈
      (processFile [] 1 fiMixed [headerLine, dataLineGood, dataLineBadUUID]
        (fun _ => true) true).1 ∧
    nonSkippedRecords [headerLine, dataLineGood, dataLineBadUUID] = 2 ∧
    (1 : Nat) + 0 ≠ 2 :=
  ⟨by decide, by decide, by decide⟩

/-- C5 (amended): for every run of `ProcessFile`, the recorded
`rows_processed + rows_failed` equals the number of successfully parsed
records; adding the line-level parse errors gives the number of non-skipped
parsed records, so records failing validation are counted only as
ProcessingErrors, in neither progress counter. -/
theorem c5_progress_sum_equals_parsed_rows (db : List FileRec) (newId : Nat)
    (fi : FileInfoW) (lines : List GoStr) (insertOk : Nat → Bool) (createOk : Bool)
    (fid s f : Nat)
    (h : DBOp.updateFileProgress fid s f ∈ (processFile db newId fi lines insertOk createOk).1) :
    s + f = (parseTSVFile lines).1.length ∧
    s + f + (parseTSVFile lines).2.length = nonSkippedRecords lines := by
  obtain ⟨hs, hf⟩ := progress_mem_processFile db newId fi lines insertOk createOk fid s f h
  subst hs
  subst hf
  constructor
  · exact insertCounts_sum insertOk _
  · rw [insertCounts_sum insertOk _]
    exact parseTSVGo_counts lines 0 true

/-- Witness for C5 (amended) on the mixed-validity fixture. -/
theorem c5_progress_sum_equals_parsed_rows_witness :
    (DBOp.updateFileProgress 1 1 0 ∈
      (processFile [] 1 fiMixed [headerLine, dataLineGood, dataLineBadUUID]
        (fun _ => true) true).1) ∧
    ((1 : Nat) + 0 = (parseTSVFile [headerLine, dataLineGood, dataLineBadUUID]).1.length ∧
      (1 : Nat) + 0 + (parseTSVFile [headerLine, dataLineGood, dataLineBadUUID]).2.length
        = nonSkippedRecords [headerLine, dataLineGood, dataLineBadUUID]) :=
  ⟨by decide,
    c5_progress_sum_equals_parsed_rows [] 1 fiMixed
      [headerLine, dataLineGood, dataLineBadUUID] (fun _ => true) true 1 1 0 (by decide)⟩

/-- C6 counterexample: `spaceLine` is exactly `tabLine` with each TAB
widened to a double space, so under the claimed space-collapsing pre-pass
both would parse alike; in the code the TAB form yields one valid row while
the space form is a single field and is rejected with an
insufficient-fields error. -/
theorem c6_counterexample :
    specCollapseSpaces spaceLine = tabLine ∧
    (parseTSVFile [tabLine]).1.length = 1 ∧
    (parseTSVFile [tabLine]).2 = [] ∧
    (parseTSVFile [spaceLine]).1 = [] ∧
    (parseTSVFile [spaceLine]).2.map (fun e => e.errorMessage)
      = ["insufficient fields: expected at least 5, got 1"] :=
  ⟨by decide, by decide, by decide, by decide, by decide⟩

/-- C6 (amended): no space-collapsing pre-pass exists — records are split
on TAB alone, so every non-blank, non-comment, non-header data line without
a TAB character is treated as a single field and rejected with
`insufficient fields`, however many space-separated fields it carries. -/
theorem c6_no_space_collapse_single_field (line : GoStr) (h1 : '\t' ∉ line)
    (h2 : trimSpaceGo line ≠ []) (h3 : hasPrefixGo "#".data (trimSpaceGo line) = false)
    (h4 : isHeaderLine line = false) :
    parseTSVFile [line]
      = ([], [{ lineNumber := some 1, rawLine := some line,
                errorMessage := "insufficient fields: expected at least 5, got 1",
                fieldName := none }]) := by
  have hpl : parseLine [line] 1 = .error "insufficient fields: expected at least 5, got 1" := by
    unfold parseLine
    rw [if_pos (by simp)]
    simp only [List.length_singleton]
    rfl
  have hc1 : (decide (trimSpaceGo line = []) || hasPrefixGo "#".data (trimSpaceGo line)) = false := by
    rw [h3, Bool.or_false]
    exact decide_eq_false h2
  unfold parseTSVFile parseTSVGo
  rw [splitTab_no_tab line h1]
  simp only [hc1, h4, Bool.true_and, Bool.false_eq_true, if_false, Nat.zero_add, hpl]
  rfl

/-- Witness for C6 (amended) at the double-space fixture line. -/
theorem c6_no_space_collapse_single_field_witness :
    ('\t' ∉ spaceLine) ∧
    parseTSVFile [spaceLine]
      = ([], [{ lineNumber := some 1, rawLine := some spaceLine,
                errorMessage := "insufficient fields: expected at least 5, got 1",
                fieldName := none }]) :=
  ⟨by decide,
    c6_no_space_collapse_single_field spaceLine (by decide) (by decide)
      (by decide) (by decide)⟩

/-- C7 counterexample: with the queue full, the scan-time enqueue of the
cited watcher takes the `time.After` branch — it waits 5000 ms before
giving up on the file, so the enqueue attempt is not non-blocking. -/
theorem c7_counterexample :
    processFileW (fun s => s) "incoming".data ⟨1, [cFullItem]⟩ cEntryA
      = (⟨1, [cFullItem]⟩, SendOutcome.droppedAfterMs 5000) ∧
    (5000 : Nat) ≠ 0 :=
  ⟨by decide, by decide⟩

/-- C7 (amended): when the queue is full and no space frees, the scan-time
enqueue blocks for the 5-second timeout and then drops the candidate — the
queue is unchanged and the file is not enqueued; since nothing records the
attempt, a later scan of the same entry with room in the queue enqueues
it. -/
theorem c7_full_queue_blocks_then_skips (hash : GoStr → GoStr) (wd : GoStr)
    (e : DirEntry) (st st2 : QueueState) (he : eligibleEntry e = true)
    (hfull : st.cap ≤ st.items.length) (hroom : st2.items.length < st2.cap) :
    processFileW hash wd st e = (st, SendOutcome.droppedAfterMs 5000) ∧
    (scanDirectoryW hash wd st2 [e]).items = st2.items ++ [mkFileInfo hash wd e] := by
  constructor
  · unfold processFileW watcherSend
    rw [if_neg (by omega)]
  · simp [scanDirectoryW, processFileW, watcherSend, he, if_pos hroom]

/-- Witness for C7 (amended) at a concrete full queue and a later scan
with room. -/
theorem c7_full_queue_blocks_then_skips_witness :
    eligibleEntry cEntryA = true ∧
    processFileW (fun s => s) "w".data ⟨1, [cFullItem]⟩ cEntryA
      = (⟨1, [cFullItem]⟩, SendOutcome.droppedAfterMs 5000) ∧
    (scanDirectoryW (fun s => s) "w".data ⟨1, []⟩ [cEntryA]).items
      = (⟨1, []⟩ : QueueState).items ++ [mkFileInfo (fun s => s) "w".data cEntryA] := by
  have h := c7_full_queue_blocks_then_skips (fun s => s) "w".data cEntryA
    ⟨1, [cFullItem]⟩ ⟨1, []⟩ (by decide) (by decide) (by decide)
  exact ⟨by decide, h.1, h.2⟩

/-- C8: the parser accepts the invalid-class fixture of
`TestParseLine_InvalidClass` — `parseLine` stores the non-member class
`INVALID_CLASS` verbatim and raises no `invalid class value` error, although
the class is outside the allowed set the claim and the repository's own
test require to be enforced. -/
theorem c8_invalid_class_accepted :
    classOfResult (parseLine cInvalidClassFields 1) = some (some "INVALID_CLASS".data) ∧
    specAllowedClasses.contains (toLowerGo "INVALID_CLASS".data) = false :=
  ⟨by decide, by decide⟩

/-- C9: when a FileRecord with the offered filename exists and its stored
hash equals the offered content hash, `ProcessFile` performs only the
lookup and returns ok: no FileRecord insert, no DeviceRow insert, no other
store write. -/
theorem c9_same_hash_early_return (db : List FileRec) (newId : Nat) (fi : FileInfoW)
    (lines : List GoStr) (insertOk : Nat → Bool) (createOk : Bool) (r : FileRec)
    (hfind : getFileByFilename db fi.name = some r) (hhash : r.fileHash = fi.hash) :
    processFile db newId fi lines insertOk createOk
      = ([DBOp.getFileByFilename fi.name], .ok ()) := by
  unfold processFile
  simp only [hfind]
  rw [if_pos hhash]

/-- Witness for C9 at a concrete store already holding the file's record. -/
theorem c9_same_hash_early_return_witness :
    getFileByFilename [({ id := 1, filename := "already.tsv".data, fileHash := "aaaa".data } : FileRec)]
        "already.tsv".data
      = some { id := 1, filename := "already.tsv".data, fileHash := "aaaa".data } ∧
    processFile [{ id := 1, filename := "already.tsv".data, fileHash := "aaaa".data }] 2
        ⟨"incoming/already.tsv".data, "already.tsv".data, 5, "aaaa".data⟩
        [] (fun _ => true) true
      = ([DBOp.getFileByFilename "already.tsv".data], .ok ()) :=
  ⟨by decide,
    c9_same_hash_early_return
      [{ id := 1, filename := "already.tsv".data, fileHash := "aaaa".data }] 2
      ⟨"incoming/already.tsv".data, "already.tsv".data, 5, "aaaa".data⟩
      [] (fun _ => true) true
      { id := 1, filename := "already.tsv".data, fileHash := "aaaa".data }
      (by decide) (by decide)⟩

/-- C10: a parsed row never carries the nil UUID — every successful
`parseLine` (and hence every row of `parseTSVFile`) has a non-nil
`UnitGuid`; the canonical all-zeros UUID string is accepted by `uuid.Parse`
as `uuid.Nil`, yet `parseLine` rejects such a record with
`unit_guid is required`. -/
theorem c10_nil_uuid_rejected :
    (∀ (fields : List GoStr) (ln : Nat), guidOkResult (parseLine fields ln) = true) ∧
    (∀ lines : List GoStr,
      ((parseTSVFile lines).1.all (fun r => decide (r.UnitGuid ≠ nilUUID))) = true) ∧
    parseLine cNilUUIDFields 1 = .error "unit_guid is required" ∧
    uuidParse zeroUUIDStr = some nilUUID := by
  refine ⟨guidOkResult_true, ?_, by rfl, by decide⟩
  intro lines
  rw [List.all_eq_true]
  intro r hr
  exact decide_eq_true (parseTSVGo_guid lines 0 true r hr)
